import Mathlib

/-!
Shallow embedding of `src/automated_trading_alerts.py` (TITAN-TRADING).

The script loads a snapshot of trading positions (JSON preferred, CSV
fallback), evaluates fixed threshold rules per position to produce alert
records, aggregates a portfolio summary, posts two Discord messages and
writes a status file.  Python's dynamically-typed position dictionaries are
modelled with an explicit dynamic-value type `Titan.PyVal`; `float(x)`
coercion is modelled by `Titan.pyFloat` (numbers coerce to themselves,
strings through a decimal parser, failure is `none` — mirroring the raised
`ValueError`).  Effectful parts (HTTP POST, file writes) are modelled by
explicit outcome parameters and effect traces.  Pre-rendered message strings
(pure f-string formatting) carry no rule logic and are not modelled.
-/

namespace Titan

/-- A dynamic (Python) value stored in a position record: either a number or
a string.  `float()` succeeds on numbers and on numeric strings. -/
inductive PyVal where
  | num (q : ℚ)
  | str (s : String)
deriving DecidableEq, Repr

/-- Value of a run of decimal digit characters. -/
def digitsToNat (l : List Char) : ℕ :=
  l.foldl (fun a c => a * 10 + (c.toNat - 48)) 0

/-- Decimal float parsing, modelling Python's `float(str)` on the inputs this
program meets: optional sign, an integer part and an optional fractional
part, at least one digit in total; anything else fails (raises in Python,
`none` here). -/
def parseFloat (s : String) : Option ℚ :=
  let cs := s.toList
  let sgn : ℚ := match cs with
    | '-' :: _ => -1
    | _ => 1
  let cs' := match cs with
    | '-' :: rest => rest
    | '+' :: rest => rest
    | _ => cs
  let intPart := cs'.takeWhile Char.isDigit
  let rest := cs'.dropWhile Char.isDigit
  match rest with
  | [] =>
      if intPart.isEmpty then none
      else some (sgn * digitsToNat intPart)
  | '.' :: frac =>
      if frac.all Char.isDigit ∧ ¬(intPart.isEmpty ∧ frac.isEmpty) then
        some (sgn * ((digitsToNat intPart : ℚ) +
          (digitsToNat frac : ℚ) / (10 ^ frac.length)))
      else none
  | _ => none

/-- Python `float(v)` on a dynamic value: numbers pass through, strings are
parsed; `none` models the raised `ValueError`. -/
def pyFloat : PyVal → Option ℚ
  | .num q => some q
  | .str s => parseFloat s

/-- Python truthiness of a dynamic value (`if pos[key]:`). -/
def truthy : PyVal → Bool
  | .num q => q ≠ 0
  | .str s => s ≠ ""

/-- One position record, as consumed by `analyze_positions` /
`generate_portfolio_summary`: each field is `none` when the key is absent
from the dictionary (the source reads them with `pos.get(key, default)`). -/
structure Position where
  symbol : Option String := none
  platform : Option String := none
  pnlPercent : Option PyVal := none
  pnlDollar : Option PyVal := none
  margin : Option PyVal := none
  slSet : Option String := none
  entryPrice : Option PyVal := none
  markPrice : Option PyVal := none
deriving DecidableEq, Repr

/-- One alert record.  Field `type` is one of the five literal kind strings,
`channel` is "portfolio" or "alpha"; the numeric payload keys present in the
source dict are `some`, absent keys are `none`. -/
structure Alert where
  type : String
  symbol : String
  platform : String
  rsi : Option ℕ := none
  pnl : Option ℚ := none
  margin : Option ℚ := none
  channel : String
deriving DecidableEq, Repr

/-- `pnl_percent = float(pos.get('PnL %', 0))`, `none` on raise. -/
def posPnlPercent (p : Position) : Option ℚ :=
  pyFloat (p.pnlPercent.getD (.num 0))

/-- `pnl_dollar = float(pos.get('PnL $', 0))`, `none` on raise. -/
def posPnlDollar (p : Position) : Option ℚ :=
  pyFloat (p.pnlDollar.getD (.num 0))

/-- `margin = float(pos.get('Margin Size ($)', 0))`, `none` on raise. -/
def posMargin (p : Position) : Option ℚ :=
  pyFloat (p.margin.getD (.num 0))

/-- The profit/loss rule group: `if pnl_percent > 50 ... elif pnl_percent < -10`. -/
def profitAlerts (symbol platform : String) (pnl margin : ℚ) : List Alert :=
  if pnl > 50 then
    [{ type := "high_profit", symbol := symbol, platform := platform,
       pnl := some pnl, channel := "portfolio" }]
  else if pnl < -10 then
    [{ type := "losing_trade", symbol := symbol, platform := platform,
       pnl := some pnl, margin := some margin, channel := "portfolio" }]
  else []

/-- The oscillator-simulation rule group:
`if pnl_percent < -15 ... elif pnl_percent > 80` (fixed simulated RSI values). -/
def oscAlerts (symbol platform : String) (pnl : ℚ) : List Alert :=
  if pnl < -15 then
    [{ type := "oversold", symbol := symbol, platform := platform,
       rsi := some 20, pnl := some pnl, channel := "alpha" }]
  else if pnl > 80 then
    [{ type := "overbought", symbol := symbol, platform := platform,
       rsi := some 85, pnl := some pnl, channel := "alpha" }]
  else []

/-- The protection rule: `if sl_set == '❌' and margin > 100`. -/
def slAlerts (symbol platform : String) (margin : ℚ) (slSet : String) : List Alert :=
  if slSet = "❌" ∧ margin > 100 then
    [{ type := "no_stop_loss", symbol := symbol, platform := platform,
       margin := some margin, channel := "portfolio" }]
  else []

/-- The three rule groups of the loop body, in source order. -/
def alertsFor (symbol platform : String) (pnl margin : ℚ) (slSet : String) :
    List Alert :=
  profitAlerts symbol platform pnl margin
    ++ oscAlerts symbol platform pnl
    ++ slAlerts symbol platform margin slSet

/-- One iteration of the `analyze_positions` loop body: coerce the three
primary numeric fields (`continue`, i.e. no alerts, if any raises), then run
the three rule groups in source order. -/
def analyzePos (pos : Position) : List Alert :=
  match posPnlPercent pos, posPnlDollar pos, posMargin pos with
  | some pnl, some _, some margin =>
      alertsFor (pos.symbol.getD "Unknown") (pos.platform.getD "Unknown")
        pnl margin (pos.slSet.getD "❌")
  | _, _, _ => []

/-- `analyze_positions(positions)`: the per-position alerts, concatenated in
position order. -/
def analyze_positions : List Position → List Alert
  | [] => []
  | p :: ps => analyzePos p ++ analyze_positions ps

/-! ### Portfolio summary (`generate_portfolio_summary`) -/

/-- `alert_counts[t] = alert_counts.get(t, 0) + 1` on an insertion-ordered
dictionary, modelled as an association list. -/
def bumpCount (l : List (String × ℕ)) (k : String) : List (String × ℕ) :=
  match l with
  | [] => [(k, 1)]
  | (k', v) :: rest => if k' = k then (k', v + 1) :: rest else (k', v) :: bumpCount rest k

/-- The alert-kind histogram built by the summary loop. -/
def alertHistogram (alerts : List Alert) : List (String × ℕ) :=
  alerts.foldl (fun acc a => bumpCount acc a.type) []

/-- `float(p.get('PnL %', 0))` over a whole list, `none` as soon as one
raises (aborting the surrounding list comprehension). -/
def pnlPercents : List Position → Option (List ℚ)
  | [] => some []
  | p :: ps =>
      match posPnlPercent p, pnlPercents ps with
      | some q, some qs => some (q :: qs)
      | _, _ => none

/-- Total dollar PnL: the summation loop skips positions whose `PnL $` fails
to coerce (`except: continue`). -/
def totalPnlOf (ps : List Position) : ℚ :=
  (ps.filterMap posPnlDollar).sum

/-- The aggregate values computed inside `generate_portfolio_summary` (the
rendered text around them is pure formatting). -/
structure Summary where
  total : ℕ
  profitable : ℕ
  losing : ℕ
  totalPnl : ℚ
  alertCounts : List (String × ℕ)
deriving DecidableEq, Repr

/-- `generate_portfolio_summary(positions, alerts)`: computes the counts with
bare `float()` on each position's `PnL %`, so an uncoercible value raises,
is caught by the enclosing `except`, and the function degrades to the fixed
error string — modelled as `none`. -/
def generate_portfolio_summary (ps : List Position) (alerts : List Alert) :
    Option Summary :=
  match pnlPercents ps with
  | none => none
  | some qs =>
      some { total := ps.length,
             profitable := (qs.filter (fun q => q > 0)).length,
             losing := (qs.filter (fun q => q < 0)).length,
             totalPnl := totalPnlOf ps,
             alertCounts := alertHistogram alerts }

/-! ### CSV numeric coercion in `load_latest_positions` -/

/-- The five column names coerced after reading a CSV snapshot. -/
def NUMERIC_KEYS : List String :=
  ["PnL %", "PnL $", "Margin Size ($)", "Entry Price", "Mark Price"]

/-- `pos[key] = float(pos[key])`, with `except: pos[key] = 0.0`. -/
def coerceVal (v : PyVal) : PyVal :=
  match pyFloat v with
  | some q => .num q
  | none => .num 0

/-- One entry of a CSV row dictionary after the conversion loop: the value is
re-assigned only when its key is one of the numeric columns AND the old
value is truthy (`if key in pos and pos[key]:`). -/
def convertEntry (e : String × PyVal) : String × PyVal :=
  if NUMERIC_KEYS.contains e.1 ∧ truthy e.2 then (e.1, coerceVal e.2) else e

/-- The numeric-coercion loop of `load_latest_positions` applied to one CSV
row (a dictionary with distinct keys, modelled as an association list). -/
def convertRow (row : List (String × PyVal)) : List (String × PyVal) :=
  row.map convertEntry

/-! ### Snapshot-file selection in `load_latest_positions` -/

/-- A candidate file in the working directory: its name and its creation
timestamp (`os.path.getctime`). -/
structure FsFile where
  name : String
  ctime : ℤ
deriving DecidableEq, Repr

/-- Whether `glob.glob("positions_*.json")` matches a (flat) file name:
the name starts with the fixed prefix and ends with the extension. -/
def matchesJson (name : String) : Bool :=
  "positions_".data.isPrefixOf name.data && ".json".data.isSuffixOf name.data

/-- Whether `glob.glob("positions_*.csv")` matches a (flat) file name. -/
def matchesCsv (name : String) : Bool :=
  "positions_".data.isPrefixOf name.data && ".csv".data.isSuffixOf name.data

/-- Python's `max(files, key=os.path.getctime)`: the first file of maximal
creation time, `none` on an empty list (where Python would raise, but the
source only calls it on non-empty lists). -/
def maxByCtime : List FsFile → Option FsFile
  | [] => none
  | f :: fs =>
      match maxByCtime fs with
      | none => some f
      | some g => if g.ctime > f.ctime then some g else some f

/-- Which snapshot file `load_latest_positions` decides to read, given the
directory contents: the newest JSON match if any JSON match exists, else the
newest CSV match, else none. -/
inductive LoadChoice where
  | jsonFile (name : String)
  | csvFile (name : String)
  | noFile
deriving DecidableEq, Repr

/-- The file-selection logic of `load_latest_positions` (lines 22-44):
JSON matches are searched first and, when present, the CSV search is never
reached. -/
def loadChoice (files : List FsFile) : LoadChoice :=
  match maxByCtime (files.filter (fun f => matchesJson f.name)) with
  | some f => .jsonFile f.name
  | none =>
      match maxByCtime (files.filter (fun f => matchesCsv f.name)) with
      | some f => .csvFile f.name
      | none => .noFile

/-! ### Notifier (`send_discord_message`) -/

/-- Outcome of the single `requests.post` call: a response with a status
code, or a raised network exception. -/
inductive HttpOutcome where
  | resp (status : ℕ)
  | netError
deriving DecidableEq, Repr

/-- What a call to `send_discord_message` does: its boolean return value and
how many network requests it performed. -/
structure SendResult where
  ok : Bool
  networkCalls : ℕ
deriving DecidableEq, Repr

/-- `send_discord_message(message, channel_id)` with the configured token and
the network outcome made explicit.  `if not DISCORD_TOKEN:` treats both an
unset variable (`none`) and an empty string as unconfigured.  The function
never raises: every path returns a boolean. -/
def send_discord_message (token : Option String) (outcome : HttpOutcome)
    (_message _channelId : String) : SendResult :=
  if token.getD "" = "" then
    { ok := false, networkCalls := 0 }
  else
    match outcome with
    | .resp status =>
        if status = 200 then { ok := true, networkCalls := 1 }
        else { ok := false, networkCalls := 1 }
    | .netError => { ok := false, networkCalls := 1 }

/-! ### Top-level run (`run_automated_alerts`) -/

/-- Observable behaviour of one run: the returned boolean, the channel ids
passed to each `send_discord_message` invocation (in order), and the names
of files written. -/
structure RunResult where
  success : Bool
  sendCalls : List String
  fileWrites : List String
deriving DecidableEq, Repr

/-- `run_automated_alerts()` with the loaded positions and the configured
channel ids made explicit.  An empty (falsy) position list returns `False`
before any analysis, messaging or persistence; otherwise the two sends are
unconditional (`if portfolio_alerts or True:`) and `latest_alerts.json` is
written. -/
def run_automated_alerts (positions : List Position)
    (portfolioChannelId alphaChannelId : String) : RunResult :=
  if positions.isEmpty then
    { success := false, sendCalls := [], fileWrites := [] }
  else
    let _alerts := analyze_positions positions
    { success := true,
      sendCalls := [portfolioChannelId, alphaChannelId],
      fileWrites := ["latest_alerts.json"] }

/-! ## Supporting lemmas -/

theorem profitAlerts_length (s pl : String) (pnl m : ℚ) :
    (profitAlerts s pl pnl m).length ≤ 1 := by
  unfold profitAlerts; split_ifs <;> simp

theorem oscAlerts_length (s pl : String) (pnl : ℚ) :
    (oscAlerts s pl pnl).length ≤ 1 := by
  unfold oscAlerts; split_ifs <;> simp

theorem slAlerts_length (s pl : String) (m : ℚ) (sl : String) :
    (slAlerts s pl m sl).length ≤ 1 := by
  unfold slAlerts; split_ifs <;> simp

theorem profitAlerts_types (s pl : String) (pnl m : ℚ) :
    ∀ a ∈ profitAlerts s pl pnl m,
      a.type = "high_profit" ∨ a.type = "losing_trade" := by
  unfold profitAlerts; split_ifs <;> simp

theorem oscAlerts_types (s pl : String) (pnl : ℚ) :
    ∀ a ∈ oscAlerts s pl pnl,
      a.type = "oversold" ∨ a.type = "overbought" := by
  unfold oscAlerts; split_ifs <;> simp

theorem slAlerts_types (s pl : String) (m : ℚ) (sl : String) :
    ∀ a ∈ slAlerts s pl m sl, a.type = "no_stop_loss" := by
  unfold slAlerts; split_ifs <;> simp

theorem alertsFor_length (s pl : String) (pnl m : ℚ) (sl : String) :
    (alertsFor s pl pnl m sl).length ≤ 3 := by
  have h1 := profitAlerts_length s pl pnl m
  have h2 := oscAlerts_length s pl pnl
  have h3 := slAlerts_length s pl m sl
  simp only [alertsFor, List.length_append]
  omega

theorem alertsFor_countP_profit (s pl : String) (pnl m : ℚ) (sl : String) :
    ((alertsFor s pl pnl m sl).countP
      fun a => a.type == "high_profit" || a.type == "losing_trade") ≤ 1 := by
  have h1 : ((profitAlerts s pl pnl m).countP
      fun a => a.type == "high_profit" || a.type == "losing_trade") ≤ 1 :=
    le_trans (List.countP_le_length _) (profitAlerts_length s pl pnl m)
  have h2 : ((oscAlerts s pl pnl).countP
      fun a => a.type == "high_profit" || a.type == "losing_trade") = 0 := by
    rw [List.countP_eq_zero]
    intro a ha
    rcases oscAlerts_types s pl pnl a ha with h | h <;> simp [h]
  have h3 : ((slAlerts s pl m sl).countP
      fun a => a.type == "high_profit" || a.type == "losing_trade") = 0 := by
    rw [List.countP_eq_zero]
    intro a ha
    have h := slAlerts_types s pl m sl a ha
    simp [h]
  simp only [alertsFor, List.countP_append]
  omega

theorem alertsFor_countP_osc (s pl : String) (pnl m : ℚ) (sl : String) :
    ((alertsFor s pl pnl m sl).countP
      fun a => a.type == "oversold" || a.type == "overbought") ≤ 1 := by
  have h1 : ((profitAlerts s pl pnl m).countP
      fun a => a.type == "oversold" || a.type == "overbought") = 0 := by
    rw [List.countP_eq_zero]
    intro a ha
    rcases profitAlerts_types s pl pnl m a ha with h | h <;> simp [h]
  have h2 : ((oscAlerts s pl pnl).countP
      fun a => a.type == "oversold" || a.type == "overbought") ≤ 1 :=
    le_trans (List.countP_le_length _) (oscAlerts_length s pl pnl)
  have h3 : ((slAlerts s pl m sl).countP
      fun a => a.type == "oversold" || a.type == "overbought") = 0 := by
    rw [List.countP_eq_zero]
    intro a ha
    have h := slAlerts_types s pl m sl a ha
    simp [h]
  simp only [alertsFor, List.countP_append]
  omega

theorem alertsFor_countP_sl (s pl : String) (pnl m : ℚ) (sl : String) :
    ((alertsFor s pl pnl m sl).countP fun a => a.type == "no_stop_loss") ≤ 1 := by
  have h1 : ((profitAlerts s pl pnl m).countP
      fun a => a.type == "no_stop_loss") = 0 := by
    rw [List.countP_eq_zero]
    intro a ha
    rcases profitAlerts_types s pl pnl m a ha with h | h <;> simp [h]
  have h2 : ((oscAlerts s pl pnl).countP
      fun a => a.type == "no_stop_loss") = 0 := by
    rw [List.countP_eq_zero]
    intro a ha
    rcases oscAlerts_types s pl pnl a ha with h | h <;> simp [h]
  have h3 : ((slAlerts s pl m sl).countP fun a => a.type == "no_stop_loss") ≤ 1 :=
    le_trans (List.countP_le_length _) (slAlerts_length s pl m sl)
  simp only [alertsFor, List.countP_append]
  omega

theorem analyzePos_length (p : Position) : (analyzePos p).length ≤ 3 := by
  unfold analyzePos
  split
  · apply alertsFor_length
  · simp

theorem analyze_positions_append (l1 l2 : List Position) :
    analyze_positions (l1 ++ l2) = analyze_positions l1 ++ analyze_positions l2 := by
  induction l1 with
  | nil => simp [analyze_positions]
  | cons p ps ih => simp [analyze_positions, ih]

/-! ## Claims -/

/-- C1: for every position sequence, `analyze_positions` produces at most
3 alerts per position (hence also at most 5): per position the profit/loss
group, the oscillator group and the stop-loss check each fire at most once. -/
theorem alert_count_bounded (ps : List Position) :
    (analyze_positions ps).length ≤ 3 * ps.length ∧
    (analyze_positions ps).length ≤ 5 * ps.length ∧
    ∀ p : Position,
      ((analyzePos p).countP
        fun a => a.type == "high_profit" || a.type == "losing_trade") ≤ 1 ∧
      ((analyzePos p).countP
        fun a => a.type == "oversold" || a.type == "overbought") ≤ 1 ∧
      ((analyzePos p).countP fun a => a.type == "no_stop_loss") ≤ 1 := by
  have hlen : ∀ l : List Position, (analyze_positions l).length ≤ 3 * l.length := by
    intro l
    induction l with
    | nil => simp [analyze_positions]
    | cons p ps ih =>
        have := analyzePos_length p
        simp only [analyze_positions, List.length_append, List.length_cons]
        omega
  have hcount : ∀ p : Position,
      ((analyzePos p).countP
        fun a => a.type == "high_profit" || a.type == "losing_trade") ≤ 1 ∧
      ((analyzePos p).countP
        fun a => a.type == "oversold" || a.type == "overbought") ≤ 1 ∧
      ((analyzePos p).countP fun a => a.type == "no_stop_loss") ≤ 1 := by
    intro p
    unfold analyzePos
    split
    · exact ⟨alertsFor_countP_profit _ _ _ _ _, alertsFor_countP_osc _ _ _ _ _,
        alertsFor_countP_sl _ _ _ _ _⟩
    · simp
  exact ⟨hlen ps, le_trans (hlen ps) (by omega), hcount⟩

/-- C2: a position with PnL% = -20, margin = 50 and the stop-loss flag
present (any marker other than the absent marker '❌') yields exactly the
two alerts losing_trade (portfolio) then oversold (alpha). -/
theorem losing_and_oversold_at_minus20 (sym plat : String) (d : ℚ) (sl : String)
    (hsl : sl ≠ "❌") :
    analyze_positions
      [{ symbol := some sym, platform := some plat,
         pnlPercent := some (.num (-20)), pnlDollar := some (.num d),
         margin := some (.num 50), slSet := some sl }] =
      [{ type := "losing_trade", symbol := sym, platform := plat,
         pnl := some (-20), margin := some 50, channel := "portfolio" },
       { type := "oversold", symbol := sym, platform := plat,
         rsi := some 20, pnl := some (-20), channel := "alpha" }] := by
  simp only [analyze_positions, analyzePos, posPnlPercent, posPnlDollar, posMargin,
    pyFloat, Option.getD, alertsFor, profitAlerts, oscAlerts, slAlerts]
  norm_num [hsl]

/-- Witness for C2 at a concrete position. -/
theorem losing_and_oversold_at_minus20_witness :
    analyze_positions
      [{ symbol := some "BTC", platform := some "Blofin",
         pnlPercent := some (.num (-20)), pnlDollar := some (.num (-7)),
         margin := some (.num 50), slSet := some "✅" }] =
      [{ type := "losing_trade", symbol := "BTC", platform := "Blofin",
         pnl := some (-20), margin := some 50, channel := "portfolio" },
       { type := "oversold", symbol := "BTC", platform := "Blofin",
         rsi := some 20, pnl := some (-20), channel := "alpha" }] :=
  losing_and_oversold_at_minus20 "BTC" "Blofin" (-7) "✅" (by decide)

/-- C3: a position with PnL% = 60, margin = 200 and the stop-loss flag
absent yields exactly the two alerts high_profit (portfolio) and
no_stop_loss (portfolio), and no oscillator alert. -/
theorem high_profit_and_no_sl_at_60 (sym plat : String) (d : ℚ) :
    analyze_positions
      [{ symbol := some sym, platform := some plat,
         pnlPercent := some (.num 60), pnlDollar := some (.num d),
         margin := some (.num 200) }] =
      [{ type := "high_profit", symbol := sym, platform := plat,
         pnl := some 60, channel := "portfolio" },
       { type := "no_stop_loss", symbol := sym, platform := plat,
         margin := some 200, channel := "portfolio" }] := by
  simp only [analyze_positions, analyzePos, posPnlPercent, posPnlDollar, posMargin,
    pyFloat, Option.getD, alertsFor, profitAlerts, oscAlerts, slAlerts]
  norm_num

/-- C4 counterexample: the empty string fails to parse as a float, yet the
CSV conversion loop leaves it unchanged — `if key in pos and pos[key]:`
skips falsy values, so the entry is neither coerced nor zeroed. -/
theorem csv_empty_string_not_zeroed :
    parseFloat "" = none ∧
    convertRow [("PnL %", PyVal.str "")] = [("PnL %", PyVal.str "")] ∧
    PyVal.str "" ≠ PyVal.num 0 := by decide

/-- C4 (amended): each of the five numeric fields whose text value is
non-empty and fails to parse as a float is set to zero by the CSV
conversion loop (empty, falsy values are skipped and left unchanged). -/
theorem csv_unparsable_nonempty_zeroed (row : List (String × PyVal))
    (k s : String) (hk : k ∈ NUMERIC_KEYS) (hs : s ≠ "")
    (hp : parseFloat s = none) (hmem : (k, PyVal.str s) ∈ row) :
    (k, PyVal.num 0) ∈ convertRow row := by
  have he : convertEntry (k, PyVal.str s) = (k, PyVal.num 0) := by
    unfold convertEntry
    rw [if_pos]
    · simp [coerceVal, pyFloat, hp]
    · exact ⟨List.elem_eq_true_of_mem hk, by simpa [truthy] using hs⟩
  exact List.mem_map.mpr ⟨(k, PyVal.str s), hmem, he⟩

/-- Witness for C4's amended theorem at a concrete unparsable row. -/
theorem csv_unparsable_nonempty_zeroed_witness :
    ("PnL %", PyVal.num 0) ∈ convertRow [("PnL %", PyVal.str "abc")] :=
  csv_unparsable_nonempty_zeroed [("PnL %", PyVal.str "abc")] "PnL %" "abc"
    (by decide) (by decide) (by decide) (by decide)

/-- C5: with an empty loaded position list, `run_automated_alerts` returns
False before invoking `send_discord_message` (zero send calls) and before
writing any file. -/
theorem empty_run_no_effects (portfolioChannelId alphaChannelId : String) :
    run_automated_alerts [] portfolioChannelId alphaChannelId =
      { success := false, sendCalls := [], fileWrites := [] } := rfl

/-- One-step unfolding of `maxByCtime` on a non-empty list. -/
theorem maxByCtime_cons (a : FsFile) (l : List FsFile) :
    maxByCtime (a :: l) = match maxByCtime l with
      | none => some a
      | some g => if g.ctime > a.ctime then some g else some a := rfl

/-- `max(files, key=getctime)` on a non-empty list returns a member of
maximal creation time. -/
theorem maxByCtime_spec (l : List FsFile) (h : l ≠ []) :
    ∃ f, maxByCtime l = some f ∧ f ∈ l ∧ ∀ g ∈ l, g.ctime ≤ f.ctime := by
  induction l with
  | nil => exact absurd rfl h
  | cons a l ih =>
      cases l with
      | nil => exact ⟨a, rfl, by simp, by simp⟩
      | cons b l' =>
          obtain ⟨f, hf, hmem, hmax⟩ := ih (by simp)
          by_cases hc : f.ctime > a.ctime
          · refine ⟨f, ?_, List.mem_cons_of_mem a hmem, ?_⟩
            · rw [maxByCtime_cons, hf]
              exact if_pos hc
            · intro g hg
              rcases List.mem_cons.mp hg with rfl | hg'
              · exact le_of_lt hc
              · exact hmax g hg'
          · refine ⟨a, ?_, List.mem_cons_self a _, ?_⟩
            · rw [maxByCtime_cons, hf]
              exact if_neg hc
            · intro g hg
              rcases List.mem_cons.mp hg with rfl | hg'
              · exact le_refl _
              · exact le_trans (hmax g hg') (not_lt.mp hc)

/-- C6: whenever at least one JSON-named snapshot exists,
`load_latest_positions` loads a JSON file of maximal creation time and the
CSV search is never consulted — whatever the CSV files' timestamps. -/
theorem json_always_preferred (files : List FsFile)
    (h : files.filter (fun f => matchesJson f.name) ≠ []) :
    ∃ f, f ∈ files.filter (fun f => matchesJson f.name) ∧
      loadChoice files = .jsonFile f.name ∧
      ∀ g ∈ files.filter (fun f => matchesJson f.name), g.ctime ≤ f.ctime := by
  obtain ⟨f, hf, hmem, hmax⟩ := maxByCtime_spec _ h
  exact ⟨f, hmem, by simp [loadChoice, hf], hmax⟩

/-- A directory with one (old) JSON snapshot and one newer CSV snapshot. -/
def demoFiles : List FsFile :=
  [⟨"positions_old.json", 0⟩, ⟨"positions_new.csv", 100⟩]

/-- Witness for C6: the old JSON file wins over the newer CSV file. -/
theorem json_always_preferred_witness :
    loadChoice demoFiles = LoadChoice.jsonFile "positions_old.json" := by
  obtain ⟨f, hmem, hload, -⟩ := json_always_preferred demoFiles (by decide)
  have hfil : demoFiles.filter (fun f => matchesJson f.name) =
      [⟨"positions_old.json", 0⟩] := by
    decide
  rw [hfil] at hmem
  have hf : f = (⟨"positions_old.json", 0⟩ : FsFile) := List.mem_singleton.mp hmem
  rw [hf] at hload
  exact hload

/-- Filtering the parsed PnL-percent list counts exactly the positions whose
PnL percent parses and satisfies the predicate. -/
theorem pnlPercents_filter_count (pr : ℚ → Bool) :
    ∀ (ps : List Position) (qs : List ℚ), pnlPercents ps = some qs →
      (qs.filter pr).length =
        ps.countP (fun p => ((posPnlPercent p).map pr).getD false) := by
  intro ps
  induction ps with
  | nil =>
      intro qs h
      simp only [pnlPercents, Option.some_inj] at h
      subst h
      simp
  | cons p ps ih =>
      intro qs h
      unfold pnlPercents at h
      rcases hp : posPnlPercent p with _ | q <;> rw [hp] at h
      · cases h
      · rcases hps : pnlPercents ps with _ | qs' <;> rw [hps] at h
        · cases h
        · cases h
          rw [List.filter_cons, List.countP_cons]
          cases hpq : pr q <;>
            simp [hp, hpq, ih qs' hps]

/-- C7: whenever `generate_portfolio_summary` produces its aggregate (no
PnL-percent value fails to coerce), the profitable count is the number of
positions with PnL% strictly above 0 and the losing count the number
strictly below 0 — a position at exactly 0 is in neither count. -/
theorem summary_counts (ps : List Position) (alerts : List Alert) (s : Summary)
    (h : generate_portfolio_summary ps alerts = some s) :
    s.total = ps.length ∧
    s.profitable =
      ps.countP (fun p => ((posPnlPercent p).map fun q => decide (0 < q)).getD false) ∧
    s.losing =
      ps.countP (fun p => ((posPnlPercent p).map fun q => decide (q < 0)).getD false) := by
  unfold generate_portfolio_summary at h
  rcases hq : pnlPercents ps with _ | qs <;> rw [hq] at h
  · cases h
  · cases h
    refine ⟨rfl, ?_, ?_⟩
    · simpa using pnlPercents_filter_count (fun q => decide (0 < q)) ps qs hq
    · simpa using pnlPercents_filter_count (fun q => decide (q < 0)) ps qs hq

/-- Positions with PnL% 10, -5 and 0. -/
def psZero : List Position :=
  [{ pnlPercent := some (.num 10) }, { pnlPercent := some (.num (-5)) },
   { pnlPercent := some (.num 0) }]

/-- The summary the source computes for `psZero` with no alerts. -/
def sZero : Summary :=
  { total := 3, profitable := 1, losing := 1, totalPnl := 0, alertCounts := [] }

/-- Witness for C7: on PnL% values [10, -5, 0] the summary counts
profitable = 1 and losing = 1 out of 3. -/
theorem summary_counts_witness :
    sZero.total = 3 ∧ sZero.profitable = 1 ∧ sZero.losing = 1 := by
  have h := summary_counts psZero [] sZero (by
    norm_num [generate_portfolio_summary, pnlPercents, posPnlPercent, posPnlDollar,
      pyFloat, totalPnlOf, psZero, sZero, alertHistogram, Summary.mk.injEq,
      List.filterMap_cons, List.filterMap_nil])
  exact ⟨h.1.trans (by decide), h.2.1.trans (by decide), h.2.2.trans (by decide)⟩

/-- C8: a position whose PnL percent, PnL dollar or margin fails float
coercion contributes no alerts at all (the loop `continue`s), and the rest
of the sequence is evaluated exactly as if the position were absent. -/
theorem bad_position_skipped (pre post : List Position) (p : Position)
    (h : posPnlPercent p = none ∨ posPnlDollar p = none ∨ posMargin p = none) :
    analyzePos p = [] ∧
    analyze_positions (pre ++ p :: post) =
      analyze_positions pre ++ analyze_positions post := by
  have hnil : analyzePos p = [] := by
    unfold analyzePos
    rcases h1 : posPnlPercent p with _ | a <;>
      rcases h2 : posPnlDollar p with _ | b <;>
        rcases h3 : posMargin p with _ | c <;>
          simp_all
  refine ⟨hnil, ?_⟩
  rw [analyze_positions_append]
  simp [analyze_positions, hnil]

/-- A position whose PnL % is a non-numeric string. -/
def pBad : Position := { pnlPercent := some (.str "abc") }

/-- Witness for C8 at a concrete uncoercible position. -/
theorem bad_position_skipped_witness :
    analyzePos pBad = [] ∧
    analyze_positions ([] ++ pBad :: []) =
      analyze_positions [] ++ analyze_positions [] :=
  bad_position_skipped [] [] pBad (Or.inl (by decide))

/-- C9: `send_discord_message` never raises: with no token configured it
returns False having made no network request; a non-2xx response returns
False; a raised network exception returns False. -/
theorem send_never_raises (token : Option String) (o : HttpOutcome)
    (msg ch : String) :
    (token.getD "" = "" →
      send_discord_message token o msg ch = { ok := false, networkCalls := 0 }) ∧
    (∀ status, o = .resp status → ¬(200 ≤ status ∧ status < 300) →
      (send_discord_message token o msg ch).ok = false) ∧
    (o = .netError → (send_discord_message token o msg ch).ok = false) := by
  refine ⟨?_, ?_, ?_⟩
  · intro h
    simp [send_discord_message, h]
  · rintro status rfl hs
    have h200 : status ≠ 200 := by omega
    unfold send_discord_message
    split
    · rfl
    · simp [h200]
  · rintro rfl
    unfold send_discord_message
    split <;> rfl

/-- C10: the notifier reports success iff a token is configured and the
status code is exactly 200; every other code — including the 2xx codes 201
and 204 — reports failure. -/
theorem send_ok_iff_status_200 (token : Option String) (o : HttpOutcome)
    (msg ch : String) :
    ((send_discord_message token o msg ch).ok = true ↔
      token.getD "" ≠ "" ∧ o = .resp 200) ∧
    (send_discord_message (some "tok") (.resp 201) msg ch).ok = false ∧
    (send_discord_message (some "tok") (.resp 204) msg ch).ok = false := by
  refine ⟨?_, by simp [send_discord_message], by simp [send_discord_message]⟩
  unfold send_discord_message
  split
  · next htok => simp [htok]
  · next htok =>
      cases o with
      | resp status =>
          by_cases hs : status = 200
          · subst hs
            simp [htok]
          · simp [htok, hs]
      | netError => simp [htok]

end Titan
